import Mathlib

/-!
Shallow embedding of the polyfuse FUSE session library.

The definitions below are translated from the two session implementations in
the repository, `crates/polyfuse/src/session.rs` (the current one) and
`src/session.rs` (the older one), together with the pieces of the public API
they use.  Machine integers are modelled as `Nat` (or `Int` for signed error
codes) with explicit wrap-around `% 2^w` at the places where the Rust code
relies on fixed-width arithmetic.
-/

/-- Decidable equality for `Except`, needed to evaluate the models on
concrete inputs. -/
instance {ε α : Type} [DecidableEq ε] [DecidableEq α] : DecidableEq (Except ε α)
  | .error a, .error b =>
    if h : a = b then .isTrue (congrArg Except.error h)
    else .isFalse (fun hc => h (Except.error.inj hc))
  | .error _, .ok _ => .isFalse (fun hc => Except.noConfusion hc)
  | .ok _, .error _ => .isFalse (fun hc => Except.noConfusion hc)
  | .ok a, .ok b =>
    if h : a = b then .isTrue (congrArg Except.ok h)
    else .isFalse (fun hc => h (Except.ok.inj hc))

/-- Modelled from the spec: the FUSE ABI major version (`FUSE_KERNEL_VERSION`),
a constant of the polyfuse-kernel crate which is not under src/. -/
def FUSE_KERNEL_VERSION : Nat := 7

/-- The minimum supported ABI minor version by polyfuse
(`MINIMUM_SUPPORTED_MINOR_VERSION` in crates/polyfuse/src/session.rs). -/
def MINIMUM_SUPPORTED_MINOR_VERSION : Nat := 23

/-- `DEFAULT_MAX_WRITE` in crates/polyfuse/src/session.rs. -/
def DEFAULT_MAX_WRITE : Nat := 16 * 1024 * 1024

/-- `BUFFER_HEADER_SIZE` in crates/polyfuse/src/session.rs. -/
def BUFFER_HEADER_SIZE : Nat := 0x1000

/-- Modelled from the spec: opcode of `FUSE_INIT` in the Linux FUSE ABI
(the polyfuse-kernel crate is not under src/). -/
def FUSE_INIT : Nat := 26

/-- Modelled from the spec: opcode of `FUSE_WRITE` in the Linux FUSE ABI. -/
def FUSE_WRITE : Nat := 16

/-- Modelled from the spec: opcode of `FUSE_NOTIFY_REPLY` in the Linux FUSE ABI. -/
def FUSE_NOTIFY_REPLY : Nat := 41

/-- Modelled from the spec: capability bit `FUSE_BIG_WRITES` (bit 5). -/
def FUSE_BIG_WRITES : Nat := 2 ^ 5

/-- Modelled from the spec: capability bit `FUSE_MAX_PAGES` (bit 22). -/
def FUSE_MAX_PAGES : Nat := 2 ^ 22

/-- Modelled from the spec: informational bit `FUSE_NO_OPEN_SUPPORT` (bit 17). -/
def FUSE_NO_OPEN_SUPPORT : Nat := 2 ^ 17

/-- Modelled from the spec: informational bit `FUSE_NO_OPENDIR_SUPPORT` (bit 24). -/
def FUSE_NO_OPENDIR_SUPPORT : Nat := 2 ^ 24

/-- Bit mask of `CapabilityFlags::all()` from crates/polyfuse/src/session.rs:
the union of the fourteen capability bits ASYNC_READ (0), POSIX_LOCKS (1),
ATOMIC_O_TRUNC (3), EXPORT_SUPPORT (4), DONT_MASK (6), FLOCK_LOCKS (10),
AUTO_INVAL_DATA (12), DO_READDIRPLUS (13), READDIRPLUS_AUTO (14),
ASYNC_DIO (15), WRITEBACK_CACHE (16), PARALLEL_DIROPS (18),
HANDLE_KILLPRIV (19), POSIX_ACL (20); the numeric bit positions are the
ABI values referenced through the polyfuse-kernel crate. -/
def CAPABILITY_ALL_BITS : Nat :=
  2 ^ 0 + 2 ^ 1 + 2 ^ 3 + 2 ^ 4 + 2 ^ 6 + 2 ^ 10 + 2 ^ 12 + 2 ^ 13 + 2 ^ 14 +
    2 ^ 15 + 2 ^ 16 + 2 ^ 18 + 2 ^ 19 + 2 ^ 20

/-- Bit mask of `CapabilityFlags::default()`: ASYNC_READ, PARALLEL_DIROPS,
AUTO_INVAL_DATA, HANDLE_KILLPRIV, ASYNC_DIO, ATOMIC_O_TRUNC. -/
def CAPABILITY_DEFAULT_BITS : Nat :=
  2 ^ 0 + 2 ^ 18 + 2 ^ 12 + 2 ^ 19 + 2 ^ 15 + 2 ^ 3

/-- Modelled from the spec: errno value `EIO`. -/
def EIO_errno : Nat := 5

/-- Modelled from the spec: errno value `ENOENT`. -/
def ENOENT : Nat := 2

/-- Modelled from the spec: errno value `ENODEV`. -/
def ENODEV : Nat := 19

/-- Modelled from the spec: errno value `EPROTO`. -/
def EPROTO : Nat := 71

/-- Size in bytes of `fuse_in_header` (seven 32/64-bit fields plus padding). -/
def SIZEOF_FUSE_IN_HEADER : Nat := 40

/-- Size in bytes of `fuse_write_in`. -/
def SIZEOF_FUSE_WRITE_IN : Nat := 40

/-- Size in bytes of `fuse_out_header`. -/
def SIZEOF_FUSE_OUT_HEADER : Nat := 16

/-- Size in bytes of `fuse_init_in` (major, minor, max_readahead, flags). -/
def SIZEOF_FUSE_INIT_IN : Nat := 16

/-- 2 to the 32, the modulus of `u32` arithmetic. -/
def U32_MOD : Nat := 2 ^ 32

/-- 2 to the 64, the modulus of `u64` arithmetic. -/
def U64_MOD : Nat := 2 ^ 64

/-- Ceiling division on naturals, used to state the spec's max_pages formula. -/
def divCeil (a b : Nat) : Nat := (a + b - 1) / b

/-- The fixed 40-byte FUSE request header (`fuse_in_header`). -/
structure FuseInHeader where
  len : Nat
  opcode : Nat
  unique : Nat
  nodeid : Nat
  uid : Nat
  gid : Nat
  pid : Nat
  deriving DecidableEq

/-- The body of an INIT request (`fuse_init_in`). -/
structure FuseInitIn where
  major : Nat
  minor : Nat
  max_readahead : Nat
  flags : Nat
  deriving DecidableEq

/-- The body of an INIT reply (`fuse_init_out`). -/
structure FuseInitOut where
  major : Nat
  minor : Nat
  max_readahead : Nat
  flags : Nat
  max_background : Nat
  congestion_threshold : Nat
  max_write : Nat
  time_gran : Nat
  max_pages : Nat
  deriving DecidableEq

/-- `Config` from crates/polyfuse/src/session.rs (the dead `max_pages` field
is omitted; it is never read). -/
structure Config where
  max_readahead : Nat
  flags : Nat
  max_background : Nat
  congestion_threshold : Nat
  max_write : Nat
  time_gran : Nat
  deriving DecidableEq

/-- `Config::default()`. -/
def Config.default : Config where
  max_readahead := U32_MOD - 1
  flags := CAPABILITY_DEFAULT_BITS
  max_background := 0
  congestion_threshold := 0
  max_write := DEFAULT_MAX_WRITE
  time_gran := 1

/-- Environment values the session reads outside its own code: the process
page size (`sysconf(_SC_PAGESIZE)`) and the ABI minor version constant
`FUSE_KERNEL_MINOR_VERSION` of the polyfuse-kernel crate (not under src/),
kept as a parameter so no concrete value is assumed. -/
structure KernelConsts where
  pagesize : Nat
  minorVersion : Nat
  deriving DecidableEq

/-- `Session` from crates/polyfuse/src/session.rs: connection info (the
enriched `fuse_init_out`), the intake buffer size, the `exited` flag and the
`notify_unique` counter. -/
structure Session where
  conn : FuseInitOut
  bufsize : Nat
  exited : Bool
  notify_unique : Nat
  deriving DecidableEq

/-- One reply frame emitted during the INIT handshake, at the granularity the
handshake claims speak about.  Modelled from the spec: the byte-level framer
(`crate::write::ReplySender`) is not under src/; per spec section 4.3 a reply
carries the request's unique id, an error code (0 on success, the negated
errno on failure) and, for a successful INIT reply, the `fuse_init_out`
payload. -/
structure InitReply where
  unique : Nat
  error : Int
  body : Option FuseInitOut
  deriving DecidableEq

/-- Errors that can abort session construction. -/
inductive InitError where
  /-- `fetch::<fuse_init_in>` failed (argument region too short). -/
  | decodeInit
  /-- a read shorter than `sizeof(fuse_in_header)` bytes. -/
  | invalidData
  /-- ten intake attempts without establishing a session. -/
  | connectionRefused
  deriving DecidableEq

/-- Little-endian 32-bit load at offset `i` of a byte list (out-of-range
bytes read as 0, matching a zero-initialized buffer). -/
def le32 (b : List Nat) (i : Nat) : Nat :=
  b.getD i 0 + 2 ^ 8 * b.getD (i + 1) 0 + 2 ^ 16 * b.getD (i + 2) 0 +
    2 ^ 24 * b.getD (i + 3) 0

/-- Modelled from the spec: `Decoder::fetch::<fuse_init_in>`
(crate::decoder is not under src/); reads `sizeof(fuse_init_in)` bytes from
the front of the argument region, failing when it is shorter. -/
def fetchInitIn (b : List Nat) : Option FuseInitIn :=
  if SIZEOF_FUSE_INIT_IN ≤ b.length then
    some ⟨le32 b 0, le32 b 4, le32 b 8, le32 b 12⟩
  else
    none

/-- Little-endian encoding of a `fuse_init_in`, used to build concrete
request buffers in witnesses. -/
def encodeInitIn (i : FuseInitIn) : List Nat :=
  [i.major % 2 ^ 8, i.major / 2 ^ 8 % 2 ^ 8, i.major / 2 ^ 16 % 2 ^ 8,
      i.major / 2 ^ 24 % 2 ^ 8] ++
    [i.minor % 2 ^ 8, i.minor / 2 ^ 8 % 2 ^ 8, i.minor / 2 ^ 16 % 2 ^ 8,
      i.minor / 2 ^ 24 % 2 ^ 8] ++
    [i.max_readahead % 2 ^ 8, i.max_readahead / 2 ^ 8 % 2 ^ 8,
      i.max_readahead / 2 ^ 16 % 2 ^ 8, i.max_readahead / 2 ^ 24 % 2 ^ 8] ++
    [i.flags % 2 ^ 8, i.flags / 2 ^ 8 % 2 ^ 8, i.flags / 2 ^ 16 % 2 ^ 8,
      i.flags / 2 ^ 24 % 2 ^ 8]

/-- `try_init` from crates/polyfuse/src/session.rs.  Returns the reply frame
sent to the kernel together with `some session` when the handshake completed,
`none` when the intake loop must continue.  `c.pagesize` stands for the
runtime page size and `c.minorVersion` for `FUSE_KERNEL_MINOR_VERSION`.
The `u32` subtraction `init_out.max_write - 1` is modelled with explicit
wrap-around, which is the release-mode behavior of the Rust code. -/
def tryInit (c : KernelConsts) (config : Config) (header : FuseInHeader)
    (arg : List Nat) : Except InitError (InitReply × Option Session) :=
  if header.opcode = FUSE_INIT then
    match fetchInitIn arg with
    | none => .error .decodeInit
    | some init_in =>
      if 7 < init_in.major then
        .ok (⟨header.unique, 0,
          some ⟨FUSE_KERNEL_VERSION, c.minorVersion, 0, 0, 0, 0, 0, 0, 0⟩⟩, none)
      else if init_in.major < 7 ∨ init_in.minor < MINIMUM_SUPPORTED_MINOR_VERSION then
        .ok (⟨header.unique, -(EPROTO : Int), none⟩, none)
      else
        let minor := min c.minorVersion init_in.minor
        let capable := init_in.flags &&& CAPABILITY_ALL_BITS
        let readonly_flags := init_in.flags &&& (U32_MOD - 1 - CAPABILITY_ALL_BITS)
        let flags0 := (config.flags &&& capable) ||| FUSE_BIG_WRITES
        let flags :=
          if init_in.flags &&& FUSE_MAX_PAGES ≠ 0 then flags0 ||| FUSE_MAX_PAGES
          else flags0
        let max_pages :=
          if init_in.flags &&& FUSE_MAX_PAGES ≠ 0 then
            min (((config.max_write + (U32_MOD - 1)) % U32_MOD) / c.pagesize + 1) 65535
          else 0
        let init_out : FuseInitOut :=
          ⟨FUSE_KERNEL_VERSION, minor,
            min config.max_readahead init_in.max_readahead, flags,
            config.max_background, config.congestion_threshold,
            config.max_write, config.time_gran, max_pages⟩
        let conn : FuseInitOut := { init_out with flags := flags ||| readonly_flags }
        .ok (⟨header.unique, 0, some init_out⟩,
          some ⟨conn, BUFFER_HEADER_SIZE + config.max_write, false, 0⟩)
  else
    .ok (⟨header.unique, -(EIO_errno : Int), none⟩, none)

/-- The body of the `for _ in 0..10` loop of `init` from
crates/polyfuse/src/session.rs, with the frames delivered by the transport
given as a list of (header, argument buffer) pairs; every modelled read
returns at least `sizeof(fuse_in_header)` bytes, and an exhausted transport
behaves like a slice reader returning 0 bytes, which the length check turns
into `InvalidData`.  The first component collects the reply frames sent. -/
def initLoop (c : KernelConsts) (config : Config) :
    Nat → List (FuseInHeader × List Nat) → List InitReply →
      List InitReply × Except InitError Session
  | 0, _, acc => (acc, .error .connectionRefused)
  | _ + 1, [], acc => (acc, .error .invalidData)
  | fuel + 1, (h, a) :: rest, acc =>
    match tryInit c config h a with
    | .error e => (acc, .error e)
    | .ok (f, some s) => (acc ++ [f], .ok s)
    | .ok (f, none) => initLoop c config fuel rest (acc ++ [f])

/-- `init` from crates/polyfuse/src/session.rs: up to 10 intake attempts. -/
def init (c : KernelConsts) (config : Config)
    (frames : List (FuseInHeader × List Nat)) :
    List InitReply × Except InitError Session :=
  initLoop c config 10 frames []

/-- The outcome of a Rust computation that may panic: `split_at` aborts the
process when the requested index exceeds the slice length. -/
inductive RustOutcome (α : Type) where
  | ok (a : α) : RustOutcome α
  | panicked : RustOutcome α
  deriving DecidableEq

/-- The result of `Operation::decode`.  The decode function itself lives in
crates/polyfuse/src/op.rs machinery that is not under src/, so its result is
kept symbolic: `unknown` is `Operation::unknown()` and `decoded h a d` stands
for whatever `Operation::decode(h, a, Data a d)` returns on those inputs. -/
inductive Operation where
  | unknown : Operation
  | decoded (header : FuseInHeader) (arg : List Nat) (data : List Nat) : Operation
  deriving DecidableEq

/-- `Request::operation` from crates/polyfuse/src/session.rs.  When the
session has exited it short-circuits to `Operation::unknown()`; for
`FUSE_WRITE` and `FUSE_NOTIFY_REPLY` it first splits the argument region at
`sizeof(fuse_write_in)`, and `<[u8]>::split_at` panics when the region is
shorter than that. -/
def Request.operation (exited : Bool) (header : FuseInHeader) (arg : List Nat) :
    RustOutcome Operation :=
  if exited then .ok .unknown
  else if header.opcode = FUSE_WRITE ∨ header.opcode = FUSE_NOTIFY_REPLY then
    if arg.length < SIZEOF_FUSE_WRITE_IN then .panicked
    else .ok (.decoded header (arg.take SIZEOF_FUSE_WRITE_IN)
      (arg.drop SIZEOF_FUSE_WRITE_IN))
  else .ok (.decoded header arg [])

/-- Errors of the reply path of `src/session.rs`. -/
inductive SendError where
  /-- `u32::try_from(16 + data_len)` failed. -/
  | invalidData
  /-- the transport's vectored write failed with this error. -/
  | io (e : Nat)
  /-- `ensure_session_is_alived` found the session exited. -/
  | notConnected
  deriving DecidableEq

/-- Little-endian byte encoding of a `u32` value. -/
def u32Bytes (x : Nat) : List Nat :=
  [x % 2 ^ 8, x / 2 ^ 8 % 2 ^ 8, x / 2 ^ 16 % 2 ^ 8, x / 2 ^ 24 % 2 ^ 8]

/-- Little-endian byte encoding of a `u64` value. -/
def u64Bytes (x : Nat) : List Nat :=
  u32Bytes (x % 2 ^ 32) ++ u32Bytes (x / 2 ^ 32 % 2 ^ 32)

/-- Two's-complement `u32` bit pattern of an `i32` value. -/
def i32Bits (x : Int) : Nat := (x % (U32_MOD : Int)).toNat

/-- Byte layout of `fuse_out_header` (16 bytes: len, error, unique), as
produced by `as_bytes` on the `#[repr(C)]` struct. -/
def outHeaderBytes (len : Nat) (error : Int) (unique : Nat) : List Nat :=
  u32Bytes len ++ u32Bytes (i32Bits error) ++ u64Bytes unique

/-- The io-vector built by `send_reply` in src/session.rs: the reply header
followed by the payload segments, with `error` negated and
`len = sizeof(fuse_out_header) + data_len` checked to fit in a `u32`. -/
def sendReplyVec (unique : Nat) (error : Int) (data : List (List Nat)) :
    Except SendError (List (List Nat)) :=
  let data_len := (data.map List.length).sum
  if SIZEOF_FUSE_OUT_HEADER + data_len < U32_MOD then
    .ok (outHeaderBytes (SIZEOF_FUSE_OUT_HEADER + data_len) (-error) unique :: data)
  else
    .error .invalidData

/-- `send_reply` from src/session.rs.  The transport is a function from the
io-vector to the number of bytes its single `poll_write_vectored` call
accepted (or an OS error); the source discards that number and returns
success unconditionally. -/
def send_reply (writer : List (List Nat) → Except Nat Nat) (unique : Nat)
    (error : Int) (data : List (List Nat)) : Except SendError Unit :=
  match sendReplyVec unique error data with
  | .error e => .error e
  | .ok vec =>
    match writer vec with
    | .error e => .error (.io e)
    | .ok _written => .ok ()

/-- Modelled from the spec: notification codes of the Linux FUSE ABI. -/
def FUSE_NOTIFY_POLL : Nat := 1

/-- Modelled from the spec: notification code `FUSE_NOTIFY_INVAL_INODE`. -/
def FUSE_NOTIFY_INVAL_INODE : Nat := 2

/-- Modelled from the spec: notification code `FUSE_NOTIFY_INVAL_ENTRY`. -/
def FUSE_NOTIFY_INVAL_ENTRY : Nat := 3

/-- Modelled from the spec: notification code `FUSE_NOTIFY_STORE`. -/
def FUSE_NOTIFY_STORE : Nat := 4

/-- Modelled from the spec: notification code `FUSE_NOTIFY_RETRIEVE`. -/
def FUSE_NOTIFY_RETRIEVE : Nat := 5

/-- Modelled from the spec: notification code `FUSE_NOTIFY_DELETE`. -/
def FUSE_NOTIFY_DELETE : Nat := 6

/-- The typed payload of each notification, field for field as built in
crates/polyfuse/src/session.rs. -/
inductive NotifyPayload where
  | invalInode (ino : Nat) (off len : Int)
  | invalEntry (parent namelen : Nat) (name : List Nat)
  | delete (parent child namelen : Nat) (name : List Nat)
  | store (nodeid offset size : Nat) (data : List (List Nat))
  | retrieve (notify_unique nodeid offset size : Nat)
  | pollWakeup (kh : Nat)
  deriving DecidableEq

/-- A notification frame handed to `ReplySender::new(writer, 0).notify`:
unique 0, a notification code and the typed payload. -/
structure NotifyFrame where
  code : Nat
  unique : Nat
  payload : NotifyPayload
  deriving DecidableEq

/-- `Session::ensure_session_is_alived` from crates/polyfuse/src/session.rs. -/
def Session.ensure_session_is_alived (s : Session) : Except SendError Unit :=
  if s.exited = false then .ok () else .error .notConnected

/-- `Session::exit` (also run by `Drop`): store `true` into the flag. -/
def Session.exit (s : Session) : Session := { s with exited := true }

/-- `Session::notify_inval_inode`. -/
def Session.notify_inval_inode (s : Session) (ino : Nat) (off len : Int) :
    Except SendError NotifyFrame :=
  match s.ensure_session_is_alived with
  | .error e => .error e
  | .ok _ => .ok ⟨FUSE_NOTIFY_INVAL_INODE, 0, .invalInode ino off len⟩

/-- `Session::notify_inval_entry` (the payload also carries the trailing
NUL-terminated name bytes; `namelen` is the name length). -/
def Session.notify_inval_entry (s : Session) (parent : Nat) (name : List Nat) :
    Except SendError NotifyFrame :=
  match s.ensure_session_is_alived with
  | .error e => .error e
  | .ok _ => .ok ⟨FUSE_NOTIFY_INVAL_ENTRY, 0, .invalEntry parent name.length name⟩

/-- `Session::notify_delete`. -/
def Session.notify_delete (s : Session) (parent child : Nat) (name : List Nat) :
    Except SendError NotifyFrame :=
  match s.ensure_session_is_alived with
  | .error e => .error e
  | .ok _ => .ok ⟨FUSE_NOTIFY_DELETE, 0, .delete parent child name.length name⟩

/-- `Session::notify_store`. -/
def Session.notify_store (s : Session) (ino offset : Nat)
    (data : List (List Nat)) : Except SendError NotifyFrame :=
  match s.ensure_session_is_alived with
  | .error e => .error e
  | .ok _ =>
    .ok ⟨FUSE_NOTIFY_STORE, 0, .store ino offset ((data.map List.length).sum) data⟩

/-- `Session::notify_retrieve`: allocates a fresh correlation id with
`fetch_add(1)` on the `u64` counter (which wraps), emits the frame and
returns the id together with the updated session. -/
def Session.notify_retrieve (s : Session) (ino offset size : Nat) :
    Except SendError (Session × NotifyFrame × Nat) :=
  match s.ensure_session_is_alived with
  | .error e => .error e
  | .ok _ =>
    let unique := s.notify_unique
    .ok ({ s with notify_unique := (s.notify_unique + 1) % U64_MOD },
      ⟨FUSE_NOTIFY_RETRIEVE, 0, .retrieve unique ino offset size⟩, unique)

/-- `Session::notify_poll_wakeup`. -/
def Session.notify_poll_wakeup (s : Session) (kh : Nat) :
    Except SendError NotifyFrame :=
  match s.ensure_session_is_alived with
  | .error e => .error e
  | .ok _ => .ok ⟨FUSE_NOTIFY_POLL, 0, .pollWakeup kh⟩

/-- The public state-changing API of `Session`, used to express that the
`exited` flag is monotonic across any call sequence. -/
inductive ApiCall where
  | exit
  | invalInode (ino : Nat) (off len : Int)
  | invalEntry (parent : Nat) (name : List Nat)
  | delete (parent child : Nat) (name : List Nat)
  | store (ino offset : Nat) (data : List (List Nat))
  | retrieve (ino offset size : Nat)
  | pollWakeup (kh : Nat)
  deriving DecidableEq

/-- The session state after one API call (outputs discarded). -/
def stepCall (s : Session) : ApiCall → Session
  | .exit => s.exit
  | .retrieve ino offset size =>
    match s.notify_retrieve ino offset size with
    | .ok (s2, _, _) => s2
    | .error _ => s
  | _ => s

/-- The correlation ids handed out by `n` consecutive `notify_retrieve`
calls starting from session state `s` (stopping early if a call fails). -/
def retrieveIds (s : Session) : Nat → List Nat
  | 0 => []
  | n + 1 =>
    match s.notify_retrieve 1 0 0 with
    | .ok (s2, _, u) => u :: retrieveIds s2 n
    | .error _ => []

/-- One outcome of the transport's vectored read in `Session::next_request`:
either `len` bytes were read (the header plus, conceptually, the first
`len - 40` bytes of `buf`, the argument region of the intake buffer), or the
read failed with an OS errno, or with an error carrying no raw OS code. -/
inductive ReadOutcome where
  | bytes (len : Nat) (header : FuseInHeader) (buf : List Nat)
  | oserr (e : Nat)
  | customErr
  deriving DecidableEq

/-- A yielded `Request`: the parsed header and the truncated argument region. -/
structure Request where
  header : FuseInHeader
  arg : List Nat
  deriving DecidableEq

/-- Errors of `Session::next_request`. -/
inductive NextRequestError where
  /-- the dequeued message was shorter than `sizeof(fuse_in_header)`. -/
  | invalidData
  /-- a read error with this raw OS code was propagated. -/
  | os (e : Nat)
  /-- a read error without a raw OS code was propagated. -/
  | custom
  /-- the modelled transport has no further outcomes. -/
  | noInput
  deriving DecidableEq

/-- `Session::next_request` from crates/polyfuse/src/session.rs: loop over
read outcomes; `ENODEV` ends the session (`Ok(None)`), `ENOENT` retries
silently, other errors propagate; a successful read shorter than the header
is `InvalidData`, otherwise the argument region is truncated to `len - 40`
(`arg.set_len(len - size_of::<fuse_in_header>())`) and a request is yielded. -/
def nextRequest : List ReadOutcome → Except NextRequestError (Option Request)
  | [] => .error .noInput
  | .bytes len h buf :: _ =>
    if len < SIZEOF_FUSE_IN_HEADER then .error .invalidData
    else .ok (some ⟨h, buf.take (len - SIZEOF_FUSE_IN_HEADER)⟩)
  | .oserr e :: rest =>
    if e = ENODEV then .ok none
    else if e = ENOENT then nextRequest rest
    else .error (.os e)
  | .customErr :: _ => .error .custom

/-- The interrupt-tracking state of the older session (src/session.rs):
`remains` maps pending request uniques to their oneshot senders (modelled as
the set of registered uniques), `interrupted` is the `HashSet` of uniques
whose interrupt was delivered, and `fired` records the uniques whose oneshot
channel actually received the signal (what the handler's `Interrupt` future
observes). -/
structure IntrState where
  remains : List Nat
  interrupted : List Nat
  fired : List Nat
  deriving DecidableEq

/-- `Session::enable_interrupt` from src/session.rs: create a fresh oneshot
channel and insert the sender under `unique`. -/
def enable_interrupt (s : IntrState) (unique : Nat) : IntrState :=
  if unique ∈ s.remains then s else { s with remains := unique :: s.remains }

/-- `Session::interrupt` from src/session.rs: only when a sender is
registered under `unique` is the unique recorded in `interrupted` and the
signal sent; otherwise the state is unchanged. -/
def interrupt (s : IntrState) (unique : Nat) : IntrState :=
  if unique ∈ s.remains then
    { remains := s.remains.erase unique,
      interrupted := unique :: s.interrupted,
      fired := unique :: s.fired }
  else s

/-- C10: once the session has exited, `Request::operation()` returns the
Unknown operation for every request, regardless of the request's opcode or
argument bytes, instead of decoding it or returning an error. -/
theorem exited_operation_unknown (header : FuseInHeader) (arg : List Nat) :
    Request.operation true header arg = .ok .unknown := by
  simp [Request.operation]

/-- C4: evaluation of the decoder at the failing input.  A live session's
`Request::operation()` on a `FUSE_WRITE` (or `FUSE_NOTIFY_REPLY`) request
whose argument region is shorter than `sizeof(fuse_write_in)` panics in
`split_at`, instead of turning the decode failure into an error; the empty
argument region arises from a read of exactly `sizeof(fuse_in_header)`
bytes, which `next_request` accepts. -/
theorem write_short_arg_panics :
    Request.operation false ⟨40, FUSE_WRITE, 7, 1, 0, 0, 0⟩ [] = .panicked ∧
    Request.operation false ⟨79, FUSE_NOTIFY_REPLY, 8, 1, 0, 0, 0⟩
      (List.replicate 39 0) = .panicked ∧
    nextRequest [.bytes 40 ⟨40, FUSE_WRITE, 7, 1, 0, 0, 0⟩ []] =
      .ok (some ⟨⟨40, FUSE_WRITE, 7, 1, 0, 0, 0⟩, []⟩) := by
  decide

/-- C3: evaluation of the interrupt tracker at the failing input.  An
INTERRUPT naming unique 42 that is processed before the handler registered
leaves the state unchanged: nothing is recorded in `interrupted`, so when
the handler registers afterwards its cancellation token is never fired (by
contrast, registering first does deliver the signal). -/
theorem interrupt_before_register_dropped :
    interrupt ⟨[], [], []⟩ 42 = ⟨[], [], []⟩ ∧
    (enable_interrupt (interrupt ⟨[], [], []⟩ 42) 42).fired = [] ∧
    (enable_interrupt (interrupt ⟨[], [], []⟩ 42) 42).interrupted = [] ∧
    (interrupt (enable_interrupt ⟨[], [], []⟩ 42) 42).fired = [42] := by
  decide

/-- A transport whose vectored write accepts only 3 bytes of any frame. -/
def shortWriter : List (List Nat) → Except Nat Nat := fun _ => .ok 3

/-- A transport whose vectored write fails with the given OS error. -/
def failWriter (e : Nat) : List (List Nat) → Except Nat Nat := fun _ => .error e

/-- C6: evaluation of the framer at the failing input.  `send_reply`
discards the byte count returned by its single vectored write: a 16-byte
error frame of which the transport accepts only 3 bytes is reported as
success, not as an I/O error (while a failing write does propagate). -/
theorem short_write_silent_success :
    send_reply shortWriter 7 5 [] = .ok () ∧
    (sendReplyVec 7 5 []).map (fun v => v.flatten.length) = .ok 16 ∧
    send_reply (failWriter 32) 7 5 [] = .error (.io 32) := by
  decide

/-- C5: for a request with unique `U`, a success reply is framed as a header
with `len = 16 + sum of segment lengths`, `error = 0` and `unique = U`,
followed by the payload segments in order; an error reply for errno `e` is
exactly the 16-byte header with `len = 16`, `error = -e` (whose `u32` bit
pattern is the two's complement `2^32 - e`) and no body. -/
theorem reply_framing (U : Nat) (segs : List (List Nat)) (e : Int)
    (hfit : SIZEOF_FUSE_OUT_HEADER + (segs.map List.length).sum < U32_MOD)
    (he0 : 0 < e) (he1 : e < 2 ^ 31) :
    sendReplyVec U 0 segs =
      .ok (outHeaderBytes (SIZEOF_FUSE_OUT_HEADER + (segs.map List.length).sum) 0 U
        :: segs) ∧
    (sendReplyVec U 0 segs).map List.flatten =
      .ok (outHeaderBytes (SIZEOF_FUSE_OUT_HEADER + (segs.map List.length).sum) 0 U
        ++ segs.flatten) ∧
    sendReplyVec U e [] = .ok [outHeaderBytes SIZEOF_FUSE_OUT_HEADER (-e) U] ∧
    (outHeaderBytes SIZEOF_FUSE_OUT_HEADER (-e) U).length = 16 ∧
    i32Bits (-e) = U32_MOD - e.toNat := by
  have h0 : sendReplyVec U 0 segs =
      .ok (outHeaderBytes (SIZEOF_FUSE_OUT_HEADER + (segs.map List.length).sum) 0 U
        :: segs) := by
    simp only [sendReplyVec, if_pos hfit, neg_zero]
  have herr : sendReplyVec U e [] =
      .ok [outHeaderBytes SIZEOF_FUSE_OUT_HEADER (-e) U] := by
    simp only [sendReplyVec, List.map_nil, List.sum_nil, Nat.add_zero]
    rw [if_pos (by norm_num [SIZEOF_FUSE_OUT_HEADER, U32_MOD])]
  refine ⟨h0, ?_, herr, ?_, ?_⟩
  · rw [h0]
    simp [Except.map]
  · simp [outHeaderBytes, u32Bytes, u64Bytes]
  · simp only [i32Bits, U32_MOD]
    omega

/-- Witness for C5 at `U = 3`, segments `[[1,2],[3]]`, `e = 5`. -/
theorem reply_framing_witness :
    sendReplyVec 3 0 [[1, 2], [3]] =
      .ok (outHeaderBytes (SIZEOF_FUSE_OUT_HEADER + ([[1, 2], [3]].map List.length).sum)
        0 3 :: [[1, 2], [3]]) ∧
    sendReplyVec 3 5 [] = .ok [outHeaderBytes SIZEOF_FUSE_OUT_HEADER (-5) 3] := by
  have h := reply_framing 3 [[1, 2], [3]] 5 (by norm_num [SIZEOF_FUSE_OUT_HEADER, U32_MOD])
    (by norm_num) (by norm_num)
  exact ⟨h.1, h.2.2.1⟩

/-- C9: `next_request` classifies transport outcomes: a read failing with
`ENODEV` ends the session (`Ok(None)`); a read failing with `ENOENT` is
retried silently; any other read error propagates; a successful read of
fewer than `sizeof(fuse_in_header)` bytes is an `InvalidData` error;
otherwise a request is yielded whose argument region is the read bytes
truncated to `len - 40`. -/
theorem next_request_classification :
    (∀ rest, nextRequest (.oserr ENODEV :: rest) = .ok none) ∧
    (∀ rest, nextRequest (.oserr ENOENT :: rest) = nextRequest rest) ∧
    (∀ e rest, e ≠ ENODEV → e ≠ ENOENT →
      nextRequest (.oserr e :: rest) = .error (.os e)) ∧
    (∀ len h buf rest, len < SIZEOF_FUSE_IN_HEADER →
      nextRequest (.bytes len h buf :: rest) = .error .invalidData) ∧
    (∀ len h buf rest, SIZEOF_FUSE_IN_HEADER ≤ len →
      nextRequest (.bytes len h buf :: rest) =
        .ok (some ⟨h, buf.take (len - SIZEOF_FUSE_IN_HEADER)⟩)) ∧
    (∀ len h buf rest, SIZEOF_FUSE_IN_HEADER ≤ len →
      len - SIZEOF_FUSE_IN_HEADER ≤ buf.length →
      ∃ r, nextRequest (.bytes len h buf :: rest) = .ok (some r) ∧
        r.arg.length = len - SIZEOF_FUSE_IN_HEADER) := by
  refine ⟨fun rest => by simp [nextRequest],
    fun rest => by simp [nextRequest, ENODEV, ENOENT],
    fun e rest h1 h2 => by simp [nextRequest, h1, h2],
    fun len h buf rest hlt => by simp [nextRequest, hlt],
    fun len h buf rest hge => by
      simp [nextRequest, Nat.not_lt.mpr hge],
    fun len h buf rest hge hble => ?_⟩
  refine ⟨⟨h, buf.take (len - SIZEOF_FUSE_IN_HEADER)⟩, ?_, ?_⟩
  · simp [nextRequest, Nat.not_lt.mpr hge]
  · simpa using hble

/-- Witness for C9: each classification clause at a concrete input. -/
theorem next_request_classification_witness :
    nextRequest [.oserr ENODEV] = .ok none ∧
    nextRequest [.oserr ENOENT, .oserr ENODEV] = .ok none ∧
    nextRequest [.oserr 7] = .error (.os 7) ∧
    nextRequest [.bytes 39 ⟨39, 1, 4, 0, 0, 0, 0⟩ []] = .error .invalidData ∧
    nextRequest [.bytes 45 ⟨45, 1, 9, 0, 0, 0, 0⟩ [1, 2, 3, 4, 5, 6, 7, 8]] =
      .ok (some ⟨⟨45, 1, 9, 0, 0, 0, 0⟩, [1, 2, 3, 4, 5]⟩) := by
  have h := next_request_classification
  refine ⟨h.1 [], ?_, h.2.2.1 7 [] (by decide) (by decide),
    h.2.2.2.1 39 ⟨39, 1, 4, 0, 0, 0, 0⟩ [] [] (by decide), ?_⟩
  · rw [h.2.1 [.oserr ENODEV]]
    exact h.1 []
  · have h5 := h.2.2.2.2.1 45 ⟨45, 1, 9, 0, 0, 0, 0⟩ [1, 2, 3, 4, 5, 6, 7, 8] []
      (by decide)
    simpa using h5

/-- C7: the `exited` flag is monotonic (no API call resets it to `false`,
and `exit` sets it), and on an exited session every notification operation
fails with `NotConnected` instead of emitting a frame. -/
theorem exit_monotonic_notify_fail :
    (∀ (s : Session) (c : ApiCall), s.exited = true → (stepCall s c).exited = true) ∧
    (∀ (s : Session), (s.exit).exited = true) ∧
    (∀ (s : Session), s.exited = true →
      (∀ ino off len, s.notify_inval_inode ino off len = .error .notConnected) ∧
      (∀ parent name, s.notify_inval_entry parent name = .error .notConnected) ∧
      (∀ parent child name, s.notify_delete parent child name = .error .notConnected) ∧
      (∀ ino offset data, s.notify_store ino offset data = .error .notConnected) ∧
      (∀ ino offset size, s.notify_retrieve ino offset size = .error .notConnected) ∧
      (∀ kh, s.notify_poll_wakeup kh = .error .notConnected)) := by
  refine ⟨fun s c hs => ?_, fun s => rfl, fun s hs => ?_⟩
  · cases c <;>
      simp [stepCall, Session.exit, Session.notify_retrieve,
        Session.ensure_session_is_alived, hs]
  · refine ⟨fun ino off len => ?_, fun parent name => ?_,
      fun parent child name => ?_, fun ino offset data => ?_,
      fun ino offset size => ?_, fun kh => ?_⟩ <;>
      simp [Session.notify_inval_inode, Session.notify_inval_entry,
        Session.notify_delete, Session.notify_store, Session.notify_retrieve,
        Session.notify_poll_wakeup, Session.ensure_session_is_alived, hs]

/-- Witness for C7 at a concrete exited session. -/
theorem exit_monotonic_notify_fail_witness :
    (stepCall ⟨⟨0, 0, 0, 0, 0, 0, 0, 0, 0⟩, 0, true, 5⟩ (.retrieve 1 0 0)).exited
      = true ∧
    Session.notify_poll_wakeup ⟨⟨0, 0, 0, 0, 0, 0, 0, 0, 0⟩, 0, true, 5⟩ 9 =
      .error .notConnected ∧
    Session.notify_retrieve ⟨⟨0, 0, 0, 0, 0, 0, 0, 0, 0⟩, 0, true, 5⟩ 1 0 0 =
      .error .notConnected := by
  have h := exit_monotonic_notify_fail
  have h3 := h.2.2 ⟨⟨0, 0, 0, 0, 0, 0, 0, 0, 0⟩, 0, true, 5⟩ rfl
  exact ⟨h.1 _ (.retrieve 1 0 0) rfl, h3.2.2.2.2.2 9, h3.2.2.2.2.1 1 0 0⟩

/-- The ids returned by consecutive retrieves starting from counter value
`k` are `k, k+1, ...` as long as the `u64` counter does not wrap. -/
theorem retrieveIds_eq_range' (conn : FuseInitOut) (bs : Nat) :
    ∀ (n k : Nat), k + n ≤ U64_MOD →
      retrieveIds ⟨conn, bs, false, k⟩ n = List.range' k n := by
  intro n
  induction n with
  | zero => intro k _; rfl
  | succ n ih =>
    intro k hk
    have hstep : Session.notify_retrieve ⟨conn, bs, false, k⟩ 1 0 0 =
        .ok (⟨conn, bs, false, (k + 1) % U64_MOD⟩,
          ⟨FUSE_NOTIFY_RETRIEVE, 0, .retrieve k 1 0 0⟩, k) := by
      simp [Session.notify_retrieve, Session.ensure_session_is_alived]
    rw [retrieveIds, hstep, List.range'_succ]
    rcases Nat.lt_or_ge (k + 1) U64_MOD with hlt | hge
    · rw [Nat.mod_eq_of_lt hlt]
      exact congrArg (k :: ·) (ih (k + 1) (by omega))
    · have hn : n = 0 := by
        have : k + 1 = U64_MOD := by omega
        omega
      subst hn
      rfl

/-- C8: starting from a fresh session (counter 0), any number `n ≤ 2^64` of
consecutive successful `notify_retrieve` calls returns exactly the ids
`0, 1, ..., n-1`: strictly increasing, starting from 0, no id handed out
twice; and no other API call changes the counter. -/
theorem retrieve_ids_strictly_increasing :
    (∀ (conn : FuseInitOut) (bs n : Nat), n ≤ U64_MOD →
      retrieveIds ⟨conn, bs, false, 0⟩ n = List.range n ∧
      List.Pairwise (· < ·) (retrieveIds ⟨conn, bs, false, 0⟩ n) ∧
      (0 < n → (retrieveIds ⟨conn, bs, false, 0⟩ n).head? = some 0)) ∧
    (∀ (s : Session) (c : ApiCall),
      (∀ ino offset size, c ≠ .retrieve ino offset size) →
      (stepCall s c).notify_unique = s.notify_unique) := by
  constructor
  · intro conn bs n hn
    have hr : retrieveIds ⟨conn, bs, false, 0⟩ n = List.range n := by
      rw [retrieveIds_eq_range' conn bs n 0 (by omega)]
      rw [List.range_eq_range']
    refine ⟨hr, ?_, ?_⟩
    · rw [hr]; exact List.pairwise_lt_range n
    · intro hpos
      rw [hr]
      cases n with
      | zero => omega
      | succ m => rw [List.range_succ_eq_map]; rfl
  · intro s c hc
    cases c with
    | retrieve ino offset size => exact absurd rfl (hc ino offset size)
    | _ => rfl

/-- Witness for C8 at `n = 3` and a non-retrieve call. -/
theorem retrieve_ids_strictly_increasing_witness :
    retrieveIds ⟨⟨0, 0, 0, 0, 0, 0, 0, 0, 0⟩, 0, false, 0⟩ 3 = List.range 3 ∧
    (stepCall ⟨⟨0, 0, 0, 0, 0, 0, 0, 0, 0⟩, 0, false, 7⟩ (.pollWakeup 4)).notify_unique
      = 7 := by
  have h := retrieve_ids_strictly_increasing
  exact ⟨(h.1 ⟨0, 0, 0, 0, 0, 0, 0, 0, 0⟩ 0 3 (by norm_num [U64_MOD])).1,
    h.2 _ (.pollWakeup 4) (fun a b c hc => ApiCall.noConfusion hc)⟩

/-- The INIT reply body as claim C1 words it: `major = 7`,
`minor = min(our minor, kernel minor)`,
`flags = (Config.flags AND kernel flags) OR BIG_WRITES` with `MAX_PAGES`
added iff the kernel offered `MAX_PAGES`, in which case
`max_pages = min(ceil(max_write / pagesize), 65535)`;
`max_readahead = min(Config.max_readahead, kernel max_readahead)`; and
`max_write`, `max_background`, `congestion_threshold`, `time_gran` taken
from `Config`.  This is the claim-side definition, to be compared with the
reply computed by `tryInit`. -/
def initOutSpec (c : KernelConsts) (config : Config) (i : FuseInitIn) :
    FuseInitOut where
  major := 7
  minor := min c.minorVersion i.minor
  max_readahead := min config.max_readahead i.max_readahead
  flags := ((config.flags &&& i.flags) ||| FUSE_BIG_WRITES) |||
    (if i.flags &&& FUSE_MAX_PAGES ≠ 0 then FUSE_MAX_PAGES else 0)
  max_background := config.max_background
  congestion_threshold := config.congestion_threshold
  max_write := config.max_write
  time_gran := config.time_gran
  max_pages :=
    if i.flags &&& FUSE_MAX_PAGES ≠ 0 then
      min (divCeil config.max_write c.pagesize) 65535
    else 0

/-- Masking with the capability universe first does not change an
already-masked flag set. -/
theorem land_all_absorb (a b : Nat) (ha : a &&& CAPABILITY_ALL_BITS = a) :
    a &&& (b &&& CAPABILITY_ALL_BITS) = a &&& b := by
  apply Nat.eq_of_testBit_eq
  intro j
  have hb := congrArg (Nat.testBit · j) ha
  simp only [Nat.testBit_land] at hb ⊢
  cases h1 : a.testBit j <;> cases h2 : b.testBit j <;>
    cases h3 : CAPABILITY_ALL_BITS.testBit j <;> simp_all

/-- C1 (amended): for an INIT request with `major = 7` and `minor ≥ 23`,
provided `Config.max_write ≥ 1`, `try_init` replies with error 0 and the
request's unique, carrying exactly the `fuse_init_out` the claim describes,
and establishes the session.  (For `Config.max_write = 0` the `u32`
computation of `max_pages` wraps; see the counterexample.) -/
theorem init_handshake_fields (c : KernelConsts) (config : Config)
    (header : FuseInHeader) (arg : List Nat) (i : FuseInitIn)
    (hop : header.opcode = FUSE_INIT)
    (hfetch : fetchInitIn arg = some i)
    (hmaj : i.major = 7)
    (hmin : MINIMUM_SUPPORTED_MINOR_VERSION ≤ i.minor)
    (hcfg : config.flags &&& CAPABILITY_ALL_BITS = config.flags)
    (hmw1 : 1 ≤ config.max_write)
    (hmw2 : config.max_write < U32_MOD)
    (hps : 0 < c.pagesize) :
    (tryInit c config header arg).map Prod.fst =
      .ok ⟨header.unique, 0, some (initOutSpec c config i)⟩ ∧
    (tryInit c config header arg).map (fun p => p.2.isSome) = .ok true := by
  have hngt : ¬(7 < i.major) := by rw [hmaj]; exact lt_irrefl 7
  have hnlt : ¬(i.major < 7 ∨ i.minor < MINIMUM_SUPPORTED_MINOR_VERSION) := by
    push_neg
    exact ⟨hmaj.ge, hmin⟩
  have hmain : tryInit c config header arg =
      .ok (⟨header.unique, 0, some
        ⟨FUSE_KERNEL_VERSION, min c.minorVersion i.minor,
          min config.max_readahead i.max_readahead,
          (if i.flags &&& FUSE_MAX_PAGES ≠ 0 then
            ((config.flags &&& (i.flags &&& CAPABILITY_ALL_BITS)) |||
              FUSE_BIG_WRITES) ||| FUSE_MAX_PAGES
          else
            (config.flags &&& (i.flags &&& CAPABILITY_ALL_BITS)) |||
              FUSE_BIG_WRITES),
          config.max_background, config.congestion_threshold,
          config.max_write, config.time_gran,
          (if i.flags &&& FUSE_MAX_PAGES ≠ 0 then
            min (((config.max_write + (U32_MOD - 1)) % U32_MOD) / c.pagesize + 1)
              65535
          else 0)⟩⟩,
        some ⟨⟨FUSE_KERNEL_VERSION, min c.minorVersion i.minor,
          min config.max_readahead i.max_readahead,
          ((if i.flags &&& FUSE_MAX_PAGES ≠ 0 then
            ((config.flags &&& (i.flags &&& CAPABILITY_ALL_BITS)) |||
              FUSE_BIG_WRITES) ||| FUSE_MAX_PAGES
          else
            (config.flags &&& (i.flags &&& CAPABILITY_ALL_BITS)) |||
              FUSE_BIG_WRITES) |||
            (i.flags &&& (U32_MOD - 1 - CAPABILITY_ALL_BITS))),
          config.max_background, config.congestion_threshold,
          config.max_write, config.time_gran,
          (if i.flags &&& FUSE_MAX_PAGES ≠ 0 then
            min (((config.max_write + (U32_MOD - 1)) % U32_MOD) / c.pagesize + 1)
              65535
          else 0)⟩,
          BUFFER_HEADER_SIZE + config.max_write, false, 0⟩) := by
    unfold tryInit
    rw [if_pos hop, hfetch]
    dsimp only
    rw [if_neg hngt, if_neg hnlt]
  have hflags : config.flags &&& (i.flags &&& CAPABILITY_ALL_BITS) =
      config.flags &&& i.flags := land_all_absorb config.flags i.flags hcfg
  have hmod : U32_MOD = 4294967296 := by norm_num [U32_MOD]
  have h1 : (config.max_write + (U32_MOD - 1)) % U32_MOD = config.max_write - 1 := by
    rw [hmod] at hmw2 ⊢
    omega
  have hmp : min (((config.max_write + (U32_MOD - 1)) % U32_MOD) / c.pagesize + 1)
      65535 = min (divCeil config.max_write c.pagesize) 65535 := by
    rw [h1]
    unfold divCeil
    rw [show config.max_write + c.pagesize - 1 = (config.max_write - 1) + c.pagesize
      from by omega, Nat.add_div_right _ hps]
  constructor
  · rw [hmain]
    simp only [Except.map]
    by_cases hc : i.flags &&& FUSE_MAX_PAGES ≠ 0
    · simp [initOutSpec, hc, hflags, hmp, FUSE_KERNEL_VERSION]
    · simp [initOutSpec, hc, hflags, FUSE_KERNEL_VERSION]
  · rw [hmain]
    simp [Except.map]

/-- C1 counterexample: with `Config.max_write = 0` (reachable: the
`max_write` setter's lower-bound assertion is commented out) and a kernel
offering `MAX_PAGES`, the reply's `max_pages` is 65535 — the wrapped `u32`
computation `(0 - 1) / pagesize + 1` clamped — whereas the claim's formula
`min(ceil(max_write / pagesize), 65535)` is 0. -/
theorem init_handshake_maxpages_cex :
    (tryInit ⟨4096, 31⟩ { Config.default with max_write := 0 }
        ⟨56, 26, 2, 0, 100, 100, 12⟩
        (encodeInitIn ⟨7, 23, 40, FUSE_MAX_PAGES⟩)).map
      (fun p => p.1.body.map FuseInitOut.max_pages) = .ok (some 65535) ∧
    min (divCeil 0 4096) 65535 = 0 := by
  decide

/-- The in-header of the repository's own `init_default` test. -/
def initDefaultHeader : FuseInHeader := ⟨56, 26, 2, 0, 100, 100, 12⟩

/-- The `fuse_init_in` of the repository's own `init_default` test:
7.23, max_readahead 40, flags `ALL | MAX_PAGES | NO_OPEN_SUPPORT |
NO_OPENDIR_SUPPORT`. -/
def initDefaultIn : FuseInitIn :=
  ⟨7, 23, 40, CAPABILITY_ALL_BITS + FUSE_MAX_PAGES + FUSE_NO_OPEN_SUPPORT +
    FUSE_NO_OPENDIR_SUPPORT⟩

/-- Witness for C1 on the repository's `init_default` test vector. -/
theorem init_handshake_fields_witness :
    (tryInit ⟨4096, 31⟩ Config.default initDefaultHeader
        (encodeInitIn initDefaultIn)).map Prod.fst =
      .ok ⟨initDefaultHeader.unique, 0,
        some (initOutSpec ⟨4096, 31⟩ Config.default initDefaultIn)⟩ ∧
    (tryInit ⟨4096, 31⟩ Config.default initDefaultHeader
        (encodeInitIn initDefaultIn)).map (fun p => p.2.isSome) = .ok true :=
  init_handshake_fields ⟨4096, 31⟩ Config.default initDefaultHeader
    (encodeInitIn initDefaultIn) initDefaultIn (by decide) (by decide)
    (by decide) (by decide) (by decide) (by decide) (by decide) (by decide)

/-- If every frame makes `try_init` send a reply and return `None`, the
intake loop of `init` never establishes a session. -/
theorem initLoop_none_isOk_false (c : KernelConsts) (config : Config) :
    ∀ (fuel : Nat) (frames : List (FuseInHeader × List Nat)) (acc : List InitReply),
      (∀ f ∈ frames, ∃ r, tryInit c config f.1 f.2 = .ok (r, none)) →
      ((initLoop c config fuel frames acc).2).isOk = false := by
  intro fuel
  induction fuel with
  | zero => intro frames acc _; rfl
  | succ n ih =>
    intro frames acc h
    cases frames with
    | nil => rfl
    | cons f rest =>
      obtain ⟨fh, fa⟩ := f
      obtain ⟨r, hr⟩ := h (fh, fa) (List.mem_cons_self _ _)
      rw [initLoop, hr]
      exact ih rest (acc ++ [r]) (fun g hg => h g (List.mem_cons_of_mem _ hg))

/-- C2 (amended): during the handshake, an INIT with `major > 7` is answered
with success carrying only our own major/minor and the session is not yet
established (the intake loop continues); an INIT with `major < 7`, or
`major = 7` and `minor < 23`, is answered with error `-EPROTO` and that
attempt does not establish the session either — the intake loop continues,
and construction fails only when no acceptable INIT arrives within the read
attempts (it can still succeed on a later frame; see the counterexample). -/
theorem version_negotiation :
    (∀ (c : KernelConsts) (config : Config) (header : FuseInHeader)
        (arg : List Nat) (i : FuseInitIn),
        header.opcode = FUSE_INIT → fetchInitIn arg = some i → 7 < i.major →
        tryInit c config header arg =
          .ok (⟨header.unique, 0,
            some ⟨FUSE_KERNEL_VERSION, c.minorVersion, 0, 0, 0, 0, 0, 0, 0⟩⟩,
            none)) ∧
    (∀ (c : KernelConsts) (config : Config) (header : FuseInHeader)
        (arg : List Nat) (i : FuseInitIn),
        header.opcode = FUSE_INIT → fetchInitIn arg = some i →
        (i.major < 7 ∨ (i.major = 7 ∧ i.minor < MINIMUM_SUPPORTED_MINOR_VERSION)) →
        tryInit c config header arg =
          .ok (⟨header.unique, -(EPROTO : Int), none⟩, none)) ∧
    (∀ (c : KernelConsts) (config : Config)
        (frames : List (FuseInHeader × List Nat)),
        (∀ f ∈ frames, ∃ i, f.1.opcode = FUSE_INIT ∧ fetchInitIn f.2 = some i ∧
          (i.major < 7 ∨ (i.major = 7 ∧ i.minor < MINIMUM_SUPPORTED_MINOR_VERSION))) →
        ((init c config frames).2).isOk = false) := by
  have hproto : ∀ (c : KernelConsts) (config : Config) (header : FuseInHeader)
      (arg : List Nat) (i : FuseInitIn),
      header.opcode = FUSE_INIT → fetchInitIn arg = some i →
      (i.major < 7 ∨ (i.major = 7 ∧ i.minor < MINIMUM_SUPPORTED_MINOR_VERSION)) →
      tryInit c config header arg =
        .ok (⟨header.unique, -(EPROTO : Int), none⟩, none) := by
    intro c config header arg i hop hfetch hbad
    have hngt : ¬(7 < i.major) := by
      rcases hbad with h | ⟨h, _⟩
      · omega
      · omega
    have hlt : i.major < 7 ∨ i.minor < MINIMUM_SUPPORTED_MINOR_VERSION := by
      rcases hbad with h | ⟨_, h⟩
      · exact Or.inl h
      · exact Or.inr h
    unfold tryInit
    rw [if_pos hop, hfetch]
    dsimp only
    rw [if_neg hngt, if_pos hlt]
  refine ⟨?_, hproto, ?_⟩
  · intro c config header arg i hop hfetch hgt
    unfold tryInit
    rw [if_pos hop, hfetch]
    dsimp only
    rw [if_pos hgt]
  · intro c config frames h
    unfold init
    apply initLoop_none_isOk_false
    intro f hf
    obtain ⟨i, hop, hfetch, hbad⟩ := h f hf
    exact ⟨⟨f.1.unique, -(EPROTO : Int), none⟩,
      hproto c config f.1 f.2 i hop hfetch hbad⟩

/-- C2 counterexample: a transport whose first frame is INIT 7.5 (answered
`-EPROTO`) and whose second frame is INIT 7.23 makes session construction
SUCCEED — the `-EPROTO` reply does not make construction fail, contrary to
the claim as stated. -/
theorem version_negotiation_cex :
    ((init ⟨4096, 31⟩ Config.default
        [(⟨56, 26, 1, 0, 0, 0, 0⟩, encodeInitIn ⟨7, 5, 0, 0⟩),
         (⟨56, 26, 2, 0, 0, 0, 0⟩, encodeInitIn ⟨7, 23, 0, 0⟩)]).1).map
      InitReply.error = [-(EPROTO : Int), 0] ∧
    ((init ⟨4096, 31⟩ Config.default
        [(⟨56, 26, 1, 0, 0, 0, 0⟩, encodeInitIn ⟨7, 5, 0, 0⟩),
         (⟨56, 26, 2, 0, 0, 0, 0⟩, encodeInitIn ⟨7, 23, 0, 0⟩)]).2).isOk = true := by
  decide

/-- Witness for C2: the `major = 8` and `minor = 5` branches at concrete
inputs, and failure of construction when only bad INITs arrive. -/
theorem version_negotiation_witness :
    tryInit ⟨4096, 31⟩ Config.default ⟨56, 26, 9, 0, 0, 0, 0⟩
        (encodeInitIn ⟨8, 0, 0, 0⟩) =
      .ok (⟨9, 0, some ⟨FUSE_KERNEL_VERSION, 31, 0, 0, 0, 0, 0, 0, 0⟩⟩, none) ∧
    tryInit ⟨4096, 31⟩ Config.default ⟨56, 26, 1, 0, 0, 0, 0⟩
        (encodeInitIn ⟨7, 5, 0, 0⟩) =
      .ok (⟨1, -(EPROTO : Int), none⟩, none) ∧
    ((init ⟨4096, 31⟩ Config.default
        [(⟨56, 26, 1, 0, 0, 0, 0⟩, encodeInitIn ⟨7, 5, 0, 0⟩)]).2).isOk = false :=
  ⟨version_negotiation.1 ⟨4096, 31⟩ Config.default ⟨56, 26, 9, 0, 0, 0, 0⟩
      (encodeInitIn ⟨8, 0, 0, 0⟩) ⟨8, 0, 0, 0⟩ (by decide) (by decide) (by decide),
    version_negotiation.2.1 ⟨4096, 31⟩ Config.default ⟨56, 26, 1, 0, 0, 0, 0⟩
      (encodeInitIn ⟨7, 5, 0, 0⟩) ⟨7, 5, 0, 0⟩ (by decide) (by decide)
      (by decide),
    version_negotiation.2.2 ⟨4096, 31⟩ Config.default
      [(⟨56, 26, 1, 0, 0, 0, 0⟩, encodeInitIn ⟨7, 5, 0, 0⟩)]
      (by
        intro f hf
        rw [List.mem_singleton] at hf
        subst hf
        exact ⟨⟨7, 5, 0, 0⟩, by decide, by decide, by decide⟩)⟩
